import Mathlib

/-!
Verification of the spine post-processing calorimetry and calibration module
(src/spine/post/reco/calo.py) and of the GNN layer construction factory
(src/mlreco/models/layers/gnn/models/factories.py), as a shallow embedding.

Real-valued quantities (charge depositions, scaling factors, coordinates) are
modelled over the rationals; numpy array sums become list sums. Python dicts
keyed by strings become association lists, and in-place mutation of particle
objects and shared tensors becomes explicit state passing: a processing run
returns the final state of every iterated particle (in iteration order)
together with the final shared-tensor map.
-/

/-- Modelled from the spec: the categorical shape constant for track-shaped
objects, imported in calo.py from spine.utils.globals (not under src/).
Only equality comparisons with Particle.shape matter, not the value. -/
def TRACK_SHP : Nat := 1

/-- A 3D spatial point (coordinates in cm). -/
abbrev Point3 := ℚ × ℚ × ℚ

/-- A reco or truth particle object, with the attributes read or written by
calo.py: `index` (the positions of this particle's depositions inside the
shared per-entry deposition tensor), `shape`, `is_truth`, `units` (the unit
the coordinates are currently expressed in, checked by check_units),
the point sequences `points` / `points_adapt`, the deposition sequences
`depositions` / `depositions_q` / `depositions_adapt_q`, the per-point
provenance `sources`, and the derived scalar `calo_ke`. -/
structure Particle where
  index : List Nat
  shape : Nat
  is_truth : Bool
  units : String
  points : List Point3
  points_adapt : List Point3
  depositions : List ℚ
  depositions_q : List ℚ
  depositions_adapt_q : List ℚ
  sources : List Nat
  calo_ke : ℚ
deriving DecidableEq, Repr

/-- First-match lookup in an association list (Python dict read). -/
def lookupAssoc {α : Type} : List (String × α) → String → Option α
  | [], _ => none
  | (k, v) :: rest, key => if k = key then some v else lookupAssoc rest key

/-- Replace-or-append write in an association list (Python dict assignment). -/
def setAssoc {α : Type} : List (String × α) → String → α → List (String × α)
  | [], key, v => [(key, v)]
  | (k, w) :: rest, key, v =>
      if k = key then (key, v) :: rest else (k, w) :: setAssoc rest key v

/-- Element read from a flat tensor, 0 outside the bounds. -/
def nth : List ℚ → Nat → ℚ
  | [], _ => 0
  | x :: _, 0 => x
  | _ :: xs, n + 1 => nth xs n

/-- Scatter-assignment `tensor[index] = values` for a numpy index array:
position `index[j]` receives `values[j]`, in order. -/
def writeAt : List ℚ → List Nat → List ℚ → List ℚ
  | t, [], _ => t
  | t, _ :: _, [] => t
  | t, i :: is, v :: vs => writeAt (t.set i v) is vs

/-- Gather-read `tensor[index]` for a numpy index array. -/
def readAt (t : List ℚ) (idx : List Nat) : List ℚ :=
  idx.map (fun i => nth t i)

/-- The shared per-entry tensors of the data dictionary, keyed by name. -/
abbrev Tensors := List (String × List ℚ)

/-- The run metadata data product (`data['run_info']`), carrying the run id. -/
structure RunInfo where
  run : Int
deriving DecidableEq, Repr

/-- One entry's data dictionary: the object collections (keyed sequences of
particles), the shared deposition tensors, and the optional run metadata. -/
structure Entry where
  collections : List (String × List Particle)
  tensors : Tensors
  run_info : Option RunInfo
deriving Repr

/-- Errors surfaced by construction or per-entry processing. -/
inductive PErr where
  | unitError
  | configurationError
  | keyError (key : String)
deriving DecidableEq, Repr

/-- Modelled from the spec: PostBase (spine/post/base.py, not under src/)
resolves obj_type and run_mode to the concrete collection keys the processor
iterates; for run_mode 'both' the reco collection precedes the truth one. -/
def obj_keys (obj_type run_mode : String) : List String :=
  if run_mode = "reco" then ["reco_" ++ obj_type ++ "s"]
  else if run_mode = "truth" then ["truth_" ++ obj_type ++ "s"]
  else ["reco_" ++ obj_type ++ "s", "truth_" ++ obj_type ++ "s"]

/-- The particle sequence traversed by `for k in self.obj_keys: for part in
data[k]`, in iteration order. -/
def iterParts (obj_type run_mode : String) (data : Entry) : List Particle :=
  ((obj_keys obj_type run_mode).map
    (fun k => (lookupAssoc data.collections k).getD [])).flatten

/-- Modelled from the spec: PostBase.get_points (not under src/) returns the
reco `points` attribute for reco particles and the attribute selected by
truth_point_mode for truth particles. -/
def get_points (truth_point_mode : String) (p : Particle) : List Point3 :=
  if p.is_truth then
    if truth_point_mode = "points_adapt" then p.points_adapt else p.points
  else p.points

/-- Read the deposition attribute named `attr` off a particle. -/
def depAttr (attr : String) (p : Particle) : List ℚ :=
  if attr = "depositions_q" then p.depositions_q
  else if attr = "depositions_adapt_q" then p.depositions_adapt_q
  else p.depositions

/-- `setattr(p, attr, v)` for a deposition attribute name. -/
def setAttrDeps (attr : String) (v : List ℚ) (p : Particle) : Particle :=
  if attr = "depositions_q" then { p with depositions_q := v }
  else if attr = "depositions_adapt_q" then { p with depositions_adapt_q := v }
  else { p with depositions := v }

/-- Modelled from the spec: PostBase.get_depositions (not under src/) returns
the reco `depositions` attribute for reco particles and the attribute selected
by truth_dep_mode for truth particles. -/
def get_depositions (truth_dep_mode : String) (p : Particle) : List ℚ :=
  if p.is_truth then depAttr truth_dep_mode p else p.depositions

/-- Modelled from the spec: PostBase.check_units (not under src/) raises
UnitError when the particle coordinates are not expressed in cm. -/
def check_units (p : Particle) : Except PErr Unit :=
  if p.units = "cm" then .ok () else .error .unitError

/-- The post-construction state of CalorimetricEnergyProcessor (calo.py lines
13-42): the scaling and shower fudge factors resolved to numbers, plus the
generic PostBase configuration. -/
structure CalorimetricEnergyProcessor where
  scaling : ℚ
  shower_fudge : ℚ
  obj_type : String
  run_mode : String
  truth_dep_mode : String
deriving Repr

/-- The per-particle body of CalorimetricEnergyProcessor.process (calo.py
lines 56-63): scale the deposition sum, with the extra shower fudge factor for
non-track shapes, and store it as calo_ke. -/
def caloStep (proc : CalorimetricEnergyProcessor) (p : Particle) : Particle :=
  let scaling := proc.scaling
  let scaling := if p.shape ≠ TRACK_SHP then scaling * proc.shower_fudge else scaling
  { p with calo_ke := scaling * (get_depositions proc.truth_dep_mode p).sum }

/-- CalorimetricEnergyProcessor.process (calo.py lines 44-63): apply caloStep
to every particle of the configured object collections. The returned list is
the final state of the iterated particles, in iteration order. -/
def CalorimetricEnergyProcessor.process
    (proc : CalorimetricEnergyProcessor) (data : Entry) : List Particle :=
  (iterParts proc.obj_type proc.run_mode data).map (caloStep proc)

/-- A Python expression, as produced by parsing a configuration string:
numeric and string literals, the arithmetic operators, and function
application (the vehicle of arbitrary code execution). Calls are modelled
unary; that is all the claims need. -/
inductive PyExpr where
  | num : ℚ → PyExpr
  | strlit : String → PyExpr
  | add : PyExpr → PyExpr → PyExpr
  | sub : PyExpr → PyExpr → PyExpr
  | mul : PyExpr → PyExpr → PyExpr
  | div : PyExpr → PyExpr → PyExpr
  | neg : PyExpr → PyExpr
  | call : String → PyExpr → PyExpr
deriving DecidableEq, Repr

/-- A Python runtime value: a number, a string, or some other object (module,
function result, ...). -/
inductive PyVal where
  | num : ℚ → PyVal
  | str : String → PyVal
  | obj : String → PyVal
deriving DecidableEq, Repr

/-- Outcome of evaluating a Python expression: a value, or a raised exception
identified by its class name. -/
inductive PyResult where
  | val : PyVal → PyResult
  | exn : String → PyResult
deriving DecidableEq, Repr

/-- The builtin names visible to Python's eval (abridged). -/
def pyBuiltins : List String := ["__import__", "abs", "open", "exec", "getattr"]

/-- Model of Python's builtin, unrestricted eval on a parsed expression:
arithmetic works on numbers, division by zero raises ZeroDivisionError,
non-numeric operands raise TypeError, unknown names raise NameError, and a
call to any builtin executes it (arbitrary code execution) and yields its
result object. -/
def pyEval : PyExpr → PyResult
  | .num q => .val (.num q)
  | .strlit s => .val (.str s)
  | .add a b =>
      match pyEval a, pyEval b with
      | .exn e, _ => .exn e
      | .val _, .exn e => .exn e
      | .val (.num x), .val (.num y) => .val (.num (x + y))
      | .val _, .val _ => .exn "TypeError"
  | .sub a b =>
      match pyEval a, pyEval b with
      | .exn e, _ => .exn e
      | .val _, .exn e => .exn e
      | .val (.num x), .val (.num y) => .val (.num (x - y))
      | .val _, .val _ => .exn "TypeError"
  | .mul a b =>
      match pyEval a, pyEval b with
      | .exn e, _ => .exn e
      | .val _, .exn e => .exn e
      | .val (.num x), .val (.num y) => .val (.num (x * y))
      | .val _, .val _ => .exn "TypeError"
  | .div a b =>
      match pyEval a, pyEval b with
      | .exn e, _ => .exn e
      | .val _, .exn e => .exn e
      | .val (.num x), .val (.num y) =>
          if y = 0 then .exn "ZeroDivisionError" else .val (.num (x / y))
      | .val _, .val _ => .exn "TypeError"
  | .neg a =>
      match pyEval a with
      | .exn e => .exn e
      | .val (.num x) => .val (.num (-x))
      | .val _ => .exn "TypeError"
  | .call f a =>
      match pyEval a with
      | .exn e => .exn e
      | .val _ => if f ∈ pyBuiltins then .val (.obj f) else .exn "NameError"

/-- A Python string holding a candidate expression, represented by its parse
outcome: either it parses to an expression, or Python's parser rejects it. -/
inductive PyStrSource where
  | parsed : PyExpr → PyStrSource
  | malformed : PyStrSource
deriving DecidableEq, Repr

/-- eval applied to a string: parse, then evaluate; a string Python cannot
parse raises SyntaxError. -/
def pyEvalStr : PyStrSource → PyResult
  | .parsed e => pyEval e
  | .malformed => .exn "SyntaxError"

/-- A scaling / shower_fudge configuration value: a number or a string. -/
inductive ScalingCfg where
  | num : ℚ → ScalingCfg
  | str : PyStrSource → ScalingCfg
deriving DecidableEq, Repr

/-- Translation of calo.py lines 34-42: the factor is stored as given and, if
it is a string, replaced by the result of Python's (unrestricted) eval. -/
def resolveFactor : ScalingCfg → PyResult
  | .num q => .val (.num q)
  | .str s => pyEvalStr s

/-- A safe arithmetic expression in the sense of the spec (section 9): numeric
literals and the operators + - * / only; string literals and calls (code
execution) are not safe. -/
def isSafeArith : PyExpr → Bool
  | .num _ => true
  | .strlit _ => false
  | .add a b => isSafeArith a && isSafeArith b
  | .sub a b => isSafeArith a && isSafeArith b
  | .mul a b => isSafeArith a && isSafeArith b
  | .div a b => isSafeArith a && isSafeArith b
  | .neg a => isSafeArith a
  | .call _ _ => false

/-- Recognizes the result of a raised ExpressionError. -/
def isExpressionError : PyResult → Bool
  | .exn s => s = "ExpressionError"
  | .val _ => false

/-- CalibrationProcessor._dep_attr_map (calo.py lines 73-76): truth point mode
to the deposition attribute written on truth particles. -/
def dep_attr_map : List (String × String) :=
  [("points", "depositions_q"), ("points_adapt", "depositions_adapt_q")]

/-- CalibrationProcessor._dep_map (calo.py lines 77-80): truth point mode to
the shared truth deposition tensor key. -/
def dep_map : List (String × String) :=
  [("points", "depositions_label_q"), ("points_adapt", "depositions")]

/-- Modelled from the spec: PostBase.__init__ (spine/post/base.py, not under
src/) validates the configuration and raises ConfigurationError on an
unrecognized truth_point_mode (spec section 7: lookup-table miss, fatal at
construction time). The recognized point modes are the keys of the two-entry
tables above. -/
def postBaseValidate (obj_type run_mode truth_point_mode : String) :
    Except PErr Unit :=
  if truth_point_mode = "points" ∨ truth_point_mode = "points_adapt" then .ok ()
  else .error .configurationError

/-- The post-construction state of CalibrationProcessor (calo.py lines
66-109). The external CalibrationManager collaborator is opaque; process
receives it as a function argument. -/
structure CalibrationProcessor where
  dedx : ℚ
  do_tracking : Bool
  obj_type : String
  run_mode : String
  truth_point_mode : String
  truth_dep_attr : String
  truth_dep_key : String
  keys : List (String × Bool)
deriving DecidableEq, Repr

/-- CalibrationProcessor.__init__ (calo.py lines 82-109): validate via the
parent class, resolve the truth deposition attribute and tensor key from the
two lookup tables, and register the required tensor keys on top of the class
level `keys = \x7b'run_info': False\x7d`: first `depositions` (required unless
run_mode is truth), then the resolved truth key (required unless run_mode is
reco). A table miss in Python would raise KeyError, hence the keyError
branches; the parent-class validation makes them unreachable. -/
def CalibrationProcessor.init (dedx : ℚ) (do_tracking : Bool)
    (obj_type run_mode truth_point_mode : String) :
    Except PErr CalibrationProcessor :=
  match postBaseValidate obj_type run_mode truth_point_mode with
  | .error e => .error e
  | .ok _ =>
    match lookupAssoc dep_attr_map truth_point_mode with
    | none => .error (.keyError truth_point_mode)
    | some attr =>
      match lookupAssoc dep_map truth_point_mode with
      | none => .error (.keyError truth_point_mode)
      | some key =>
        .ok { dedx := dedx, do_tracking := do_tracking, obj_type := obj_type,
              run_mode := run_mode, truth_point_mode := truth_point_mode,
              truth_dep_attr := attr, truth_dep_key := key,
              keys := setAssoc
                        (setAssoc [("run_info", false)]
                          "depositions" (decide (run_mode ≠ "truth")))
                        key (decide (run_mode ≠ "reco")) }

/-- One invocation of the external calibration collaborator, recording the
full call signature: simple mode is `self.calibrator(points, depositions,
sources, run_id, dedx)` (calo.py lines 138-140), track-segmented mode is
`self.calibrator.process(points, depositions, sources, run_id, track=True)`
(calo.py lines 142-144). -/
inductive CalibCall where
  | simple (points : List Point3) (depositions : List ℚ) (sources : List Nat)
      (run_id : Option Int) (dedx : ℚ)
  | tracked (points : List Point3) (depositions : List ℚ) (sources : List Nat)
      (run_id : Option Int)
deriving DecidableEq, Repr

/-- The deposition sequence handed to the collaborator in a call. -/
def CalibCall.depsOf : CalibCall → List ℚ
  | .simple _ d _ _ _ => d
  | .tracked _ d _ _ => d

/-- The calibration dispatch of calo.py lines 137-144: simple mode when
do_tracking is off or the particle is not track-shaped, else tracked mode. -/
def calibCallFor (proc : CalibrationProcessor) (run_id : Option Int)
    (pts : List Point3) (p : Particle) : CalibCall :=
  if proc.do_tracking = false ∨ p.shape ≠ TRACK_SHP then
    .simple pts p.depositions p.sources run_id proc.dedx
  else
    .tracked pts p.depositions p.sources run_id

/-- The per-particle body of CalibrationProcessor.process (calo.py lines
127-152): check units, skip particles without points, call the collaborator,
then write the corrected depositions back: a reco particle updates its own
`depositions` and the slice of the shared `depositions` tensor at its index;
a truth particle updates the resolved truth attribute and replaces the
resolved shared truth tensor wholesale. Returns the updated particle, the
updated tensors, and the collaborator calls made for this particle. -/
def processOne (proc : CalibrationProcessor) (calib : CalibCall → List ℚ)
    (run_id : Option Int) (st : Tensors) (p : Particle) :
    Except PErr (Particle × Tensors × List CalibCall) :=
  match check_units p with
  | .error e => .error e
  | .ok _ =>
    let pts := get_points proc.truth_point_mode p
    if pts.isEmpty then .ok (p, st, [])
    else
      let c := calibCallFor proc run_id pts p
      let deps := calib c
      if p.is_truth = false then
        .ok ({ p with depositions := deps },
             setAssoc st "depositions"
               (writeAt ((lookupAssoc st "depositions").getD []) p.index deps),
             [c])
      else
        .ok (setAttrDeps proc.truth_dep_attr deps p,
             setAssoc st proc.truth_dep_key deps,
             [c])

/-- Outcome of running the particle loop of CalibrationProcessor.process:
the final state of every particle (processed ones updated, the failing one
and the ones after it untouched), the final tensors, the collaborator call
trace, and the propagated error if one was raised. -/
structure RunOut where
  particles : List Particle
  tensors : Tensors
  calls : List CalibCall
  err : Option PErr
deriving DecidableEq, Repr

/-- The particle loop of CalibrationProcessor.process (calo.py lines
126-152), over the traversal sequence of the configured collections. An error
aborts the loop: the remaining particles are not processed and keep their
state, while writes already made persist (in-place mutation semantics). -/
def processList (proc : CalibrationProcessor) (calib : CalibCall → List ℚ)
    (run_id : Option Int) : List Particle → Tensors → RunOut
  | [], st => ⟨[], st, [], none⟩
  | p :: rest, st =>
    match processOne proc calib run_id st p with
    | .error e => ⟨p :: rest, st, [], some e⟩
    | .ok (p', st', cs) =>
      let r := processList proc calib run_id rest st'
      ⟨p' :: r.particles, r.tensors, cs ++ r.calls, r.err⟩

/-- CalibrationProcessor.process (calo.py lines 111-152): fetch the run id
from the optional run_info product, then run the particle loop over the
configured object collections against the entry's shared tensors. -/
def CalibrationProcessor.process (proc : CalibrationProcessor)
    (calib : CalibCall → List ℚ) (data : Entry) : RunOut :=
  processList proc calib (data.run_info.map RunInfo.run)
    (iterParts proc.obj_type proc.run_mode data) data.tensors

/-- Whether a run mode includes the reconstructed domain. -/
def includesReco (run_mode : String) : Bool :=
  run_mode = "reco" ∨ run_mode = "both"

/-- Whether a run mode includes the truth domain. -/
def includesTruth (run_mode : String) : Bool :=
  run_mode = "truth" ∨ run_mode = "both"

/-- A Python runtime value in the factories module semantics. -/
inductive GVal where
  | str : String → GVal
  | module : String → GVal
  | func : String → GVal
  | layerDict : String → GVal
  | layerInstance : String → GVal
  | config : String → GVal
  | intv : Int → GVal
deriving DecidableEq, Repr

/-- An argument expression appearing in the factory function bodies: a name
reference or a string literal. -/
inductive GArg where
  | ref : String → GArg
  | lit : String → GArg
deriving DecidableEq, Repr

/-- A call expression `callee(pos..., kw=...)` whose callee is a name. -/
structure GCall where
  callee : String
  pos : List GArg
  kw : List (String × GArg)
deriving DecidableEq, Repr

/-- A factory function definition: parameter names, one local assignment
(`layer_dict = ...`), and the returned call expression. -/
structure GFunc where
  params : List String
  localName : String
  localCall : GCall
  ret : GCall
deriving DecidableEq, Repr

/-- A Python exception raised during evaluation. -/
inductive GExn where
  | nameError (name : String)
  | typeError
deriving DecidableEq, Repr

/-- An observable side effect of evaluation: the instantiation of a layer. -/
inductive GEvent where
  | instantiated (pattern : String)
deriving DecidableEq, Repr

/-- Name references of a call expression, i.e. which in-scope names its
evaluation forwards. -/
def GCall.refNames (c : GCall) : List String :=
  (c.pos ++ c.kw.map Prod.snd).filterMap
    (fun a => match a with | .ref n => some n | .lit _ => none)

/-- Evaluate one argument in an environment: a name reference resolves
through the scope or raises NameError, a literal evaluates to itself. -/
def evalArg (env : List (String × GVal)) : GArg → Except GExn GVal
  | .ref n =>
      match lookupAssoc env n with
      | some v => .ok v
      | none => .error (.nameError n)
  | .lit s => .ok (.str s)

/-- Evaluate arguments left to right, stopping at the first exception. -/
def evalArgs (env : List (String × GVal)) : List GArg → Except GExn (List GVal)
  | [] => .ok []
  | a :: rest =>
    match evalArg env a with
    | .error e => .error e
    | .ok v =>
      match evalArgs env rest with
      | .error e => .error e
      | .ok vs => .ok (v :: vs)

/-- Modelled from the spec: the external factory collaborators from
mlreco.utils.factory (not under src/), per spec sections 4.1 and 9.
`module_dict(layers, pattern=p)` builds the registry of layer classes
matching the pattern; `instantiate(layer_dict, cfg, ...)` constructs a layer
from the registry and the configuration, which is the only action that
instantiates a layer (it emits the corresponding event). -/
def applyFunc (f : String) (pos : List GVal) (kw : List (String × GVal)) :
    List GEvent × Except GExn GVal :=
  if f = "module_dict" then
    match lookupAssoc kw "pattern" with
    | some (.str p) => ([], .ok (.layerDict p))
    | _ => ([], .error .typeError)
  else if f = "instantiate" then
    match pos with
    | .layerDict p :: _ => ([.instantiated p], .ok (.layerInstance p))
    | _ => ([], .error .typeError)
  else ([], .error .typeError)

/-- Evaluate a call expression: resolve the callee name, evaluate positional
arguments then keyword arguments left to right, and apply. No event is
emitted when evaluation fails before the application. -/
def evalCall (env : List (String × GVal)) (c : GCall) :
    List GEvent × Except GExn GVal :=
  match lookupAssoc env c.callee with
  | none => ([], .error (.nameError c.callee))
  | some f =>
    match evalArgs env c.pos with
    | .error e => ([], .error e)
    | .ok pvals =>
      match evalArgs env (c.kw.map Prod.snd) with
      | .error e => ([], .error e)
      | .ok kvals =>
        match f with
        | .func fname => applyFunc fname pvals (c.kw.map Prod.fst |>.zip kvals)
        | _ => ([], .error .typeError)

/-- The module-level namespace of factories.py: the two imported factory
helpers, the imported layers submodule, and the three defined functions. -/
def factoriesModuleEnv : List (String × GVal) :=
  [("module_dict", .func "module_dict"),
   ("instantiate", .func "instantiate"),
   ("layers", .module "layers"),
   ("node_layer_construct", .func "node_layer_construct"),
   ("edge_layer_construct", .func "edge_layer_construct"),
   ("global_layer_construct", .func "global_layer_construct")]

/-- Run a factory function body on argument values: bind the parameters over
the module namespace, evaluate the local assignment, bind it, and evaluate
the returned call. Events from both calls are collected in order. -/
def runGFunc (f : GFunc) (args : List GVal) : List GEvent × Except GExn GVal :=
  let env := f.params.zip args ++ factoriesModuleEnv
  match evalCall env f.localCall with
  | (ev1, .error e) => (ev1, .error e)
  | (ev1, .ok v) =>
    let env2 := (f.localName, v) :: env
    match evalCall env2 f.ret with
    | (ev2, r) => (ev1 ++ ev2, r)

/-- factories.py lines 11-32: node_layer_construct(cfg, node_in, edge_in,
glob_in) builds the Node registry and forwards all three feature counts. -/
def node_layer_construct_def : GFunc :=
  { params := ["cfg", "node_in", "edge_in", "glob_in"],
    localName := "layer_dict",
    localCall := { callee := "module_dict", pos := [.ref "layers"],
                   kw := [("pattern", .lit "Node")] },
    ret := { callee := "instantiate", pos := [.ref "layer_dict", .ref "cfg"],
             kw := [("node_in", .ref "node_in"), ("edge_in", .ref "edge_in"),
                    ("glob_in", .ref "glob_in")] } }

/-- factories.py lines 59-77: global_layer_construct(cfg, node_in, glob_in)
builds the Global registry, then returns
`instantiate(layer_dict, cfg, node_in=node_in, edge_in=edge_in)` --- the name
`edge_in` is not among its parameters, and `glob_in` is not forwarded. -/
def global_layer_construct_def : GFunc :=
  { params := ["cfg", "node_in", "glob_in"],
    localName := "layer_dict",
    localCall := { callee := "module_dict", pos := [.ref "layers"],
                   kw := [("pattern", .lit "Global")] },
    ret := { callee := "instantiate", pos := [.ref "layer_dict", .ref "cfg"],
             kw := [("node_in", .ref "node_in"),
                    ("edge_in", .ref "edge_in")] } }

/-- Calling node_layer_construct. -/
def node_layer_construct (cfg node_in edge_in glob_in : GVal) :
    List GEvent × Except GExn GVal :=
  runGFunc node_layer_construct_def [cfg, node_in, edge_in, glob_in]

/-- Calling global_layer_construct. -/
def global_layer_construct (cfg node_in glob_in : GVal) :
    List GEvent × Except GExn GVal :=
  runGFunc global_layer_construct_def [cfg, node_in, glob_in]

/-- A pure collaborator stub returning its input depositions unchanged; it
trivially satisfies the length contract of the collaborator interface. -/
def calibId : CalibCall → List ℚ := CalibCall.depsOf

/-- A blank reco particle, used as a base for concrete test inputs. -/
def blankParticle : Particle :=
  { index := [], shape := 2, is_truth := false, units := "cm", points := [],
    points_adapt := [], depositions := [], depositions_q := [],
    depositions_adapt_q := [], sources := [], calo_ke := 0 }

/-- Concrete calorimetry processor configuration. -/
def procC1 : CalorimetricEnergyProcessor :=
  { scaling := 3, shower_fudge := 2, obj_type := "particle",
    run_mode := "reco", truth_dep_mode := "depositions" }

/-- Concrete entry holding one reco particle with no depositions. -/
def dataC1 : Entry :=
  { collections := [("reco_particles", [blankParticle])], tensors := [],
    run_info := none }

/-- The calibration processor produced by construction with run_mode 'reco'
and truth_point_mode 'points'. -/
def procPoints : CalibrationProcessor :=
  { dedx := 2, do_tracking := false, obj_type := "particle",
    run_mode := "reco", truth_point_mode := "points",
    truth_dep_attr := "depositions_q", truth_dep_key := "depositions_label_q",
    keys := [("run_info", false), ("depositions", true),
             ("depositions_label_q", false)] }

/-- The calibration processor produced by construction with run_mode 'both'
and truth_point_mode 'points_adapt'. -/
def procAdapt : CalibrationProcessor :=
  { dedx := 2, do_tracking := false, obj_type := "particle",
    run_mode := "both", truth_point_mode := "points_adapt",
    truth_dep_attr := "depositions_adapt_q", truth_dep_key := "depositions",
    keys := [("run_info", false), ("depositions", true)] }

/-- Concrete reco particle: one point, one deposition, tensor slot 0. -/
def pRecoEx : Particle :=
  { blankParticle with index := [0], points := [(1, 2, 3)],
                       depositions := [10], sources := [0] }

/-- Concrete truth particle with a non-empty adapted point sequence. -/
def pTruthEx : Particle :=
  { blankParticle with is_truth := true, points_adapt := [(4, 5, 6)],
                       depositions := [7], sources := [1] }

/-- Concrete reco particle with points but coordinates not in cm. -/
def pBadUnits : Particle :=
  { blankParticle with units := "px", points := [(1, 1, 1)],
                       depositions := [4], sources := [2] }

/-- Concrete reco particle in tensor slot 1. -/
def pRecoEx2 : Particle :=
  { blankParticle with index := [1], points := [(9, 9, 9)],
                       depositions := [20], sources := [3] }

/-- Concrete track-shaped reco particle. -/
def pTrackEx : Particle :=
  { blankParticle with shape := TRACK_SHP, index := [0],
                       points := [(1, 0, 0), (2, 0, 0)],
                       depositions := [5, 6], sources := [0, 0] }

/-- Concrete entry with one reco and one truth particle, in the reco and
truth particle collections respectively. -/
def dataBoth : Entry :=
  { collections := [("reco_particles", [pRecoEx]), ("truth_particles", [pTruthEx])],
    tensors := [("depositions", [10, 20])], run_info := none }

/-- Concrete entry with a single reco particle collection. -/
def dataRec : Entry :=
  { collections := [("reco_particles", [pRecoEx])],
    tensors := [("depositions", [10, 20])], run_info := none }

theorem nth_set_ne (t : List ℚ) (i j : Nat) (v : ℚ) (h : i ≠ j) :
    nth (t.set i v) j = nth t j := by
  induction t generalizing i j with
  | nil => simp [List.set]
  | cons a t ih =>
    cases i with
    | zero =>
      cases j with
      | zero => exact absurd rfl h
      | succ j => simp [List.set, nth]
    | succ i =>
      cases j with
      | zero => simp [List.set, nth]
      | succ j =>
        simp only [List.set, nth]
        exact ih i j (fun hh => h (by rw [hh]))

theorem nth_set_self (t : List ℚ) (i : Nat) (v : ℚ) (h : i < t.length) :
    nth (t.set i v) i = v := by
  induction t generalizing i with
  | nil => simp at h
  | cons a t ih =>
    cases i with
    | zero => simp [List.set, nth]
    | succ i =>
      simp only [List.set, nth]
      exact ih i (by simpa using h)

theorem writeAt_length (idx : List Nat) (t vs : List ℚ) :
    (writeAt t idx vs).length = t.length := by
  induction idx generalizing t vs with
  | nil => simp [writeAt]
  | cons i is ih =>
    cases vs with
    | nil => simp [writeAt]
    | cons v vs => simp [writeAt, ih, List.length_set]

theorem nth_writeAt_notin (idx : List Nat) (t vs : List ℚ) (j : Nat)
    (h : j ∉ idx) : nth (writeAt t idx vs) j = nth t j := by
  induction idx generalizing t vs with
  | nil => simp [writeAt]
  | cons i is ih =>
    cases vs with
    | nil => simp [writeAt]
    | cons v vs =>
      simp only [writeAt]
      rw [ih _ _ (fun hm => h (List.mem_cons_of_mem _ hm))]
      exact nth_set_ne t i j v (fun hh => h (hh ▸ List.mem_cons_self i is))

theorem readAt_writeAt (idx : List Nat) (t vs : List ℚ)
    (hnd : idx.Nodup) (hlen : idx.length = vs.length)
    (hb : ∀ i ∈ idx, i < t.length) :
    readAt (writeAt t idx vs) idx = vs := by
  induction idx generalizing t vs with
  | nil =>
    cases vs with
    | nil => simp [writeAt, readAt]
    | cons v vs => simp at hlen
  | cons i is ih =>
    cases vs with
    | nil => simp at hlen
    | cons v vs =>
      simp only [writeAt, readAt, List.map_cons]
      have h1 : nth (writeAt (t.set i v) is vs) i = v := by
        rw [nth_writeAt_notin is (t.set i v) vs i (List.nodup_cons.mp hnd).1]
        exact nth_set_self t i v (hb i (List.mem_cons_self i is))
      have h2 : readAt (writeAt (t.set i v) is vs) is = vs :=
        ih (t.set i v) vs (List.nodup_cons.mp hnd).2
          (by simpa using hlen)
          (fun j hj => by
            rw [List.length_set]
            exact hb j (List.mem_cons_of_mem _ hj))
      simp only [readAt] at h2
      rw [h1, h2]

theorem lookupAssoc_setAssoc_self {α : Type} (xs : List (String × α))
    (k : String) (v : α) : lookupAssoc (setAssoc xs k v) k = some v := by
  induction xs with
  | nil => simp [setAssoc, lookupAssoc]
  | cons a rest ih =>
    by_cases h : a.1 = k
    · simp [setAssoc, h, lookupAssoc]
    · simp [setAssoc, h, lookupAssoc, ih]

theorem lookupAssoc_setAssoc_ne {α : Type} (xs : List (String × α))
    (k k' : String) (v : α) (h : k' ≠ k) :
    lookupAssoc (setAssoc xs k v) k' = lookupAssoc xs k' := by
  induction xs with
  | nil => simp [setAssoc, lookupAssoc, Ne.symm h]
  | cons a rest ih =>
    by_cases ha : a.1 = k
    · simp [setAssoc, ha, lookupAssoc, Ne.symm h]
    · by_cases ha' : a.1 = k'
      · simp [setAssoc, ha, lookupAssoc, ha', h]
      · simp [setAssoc, ha, lookupAssoc, ha', ih]

theorem processOne_unit_err (proc : CalibrationProcessor)
    (calib : CalibCall → List ℚ) (rid : Option Int) (st : Tensors)
    (p : Particle) (hu : p.units ≠ "cm") :
    processOne proc calib rid st p = .error .unitError := by
  simp [processOne, check_units, hu]

theorem processOne_skip (proc : CalibrationProcessor)
    (calib : CalibCall → List ℚ) (rid : Option Int) (st : Tensors)
    (p : Particle) (hu : p.units = "cm")
    (hp : get_points proc.truth_point_mode p = []) :
    processOne proc calib rid st p = .ok (p, st, []) := by
  simp [processOne, check_units, hu, hp]

theorem processOne_reco (proc : CalibrationProcessor)
    (calib : CalibCall → List ℚ) (rid : Option Int) (st : Tensors)
    (p : Particle) (hu : p.units = "cm")
    (hp : get_points proc.truth_point_mode p ≠ [])
    (ht : p.is_truth = false) :
    processOne proc calib rid st p =
      .ok ({ p with depositions :=
               calib (calibCallFor proc rid (get_points proc.truth_point_mode p) p) },
           setAssoc st "depositions"
             (writeAt ((lookupAssoc st "depositions").getD []) p.index
               (calib (calibCallFor proc rid (get_points proc.truth_point_mode p) p))),
           [calibCallFor proc rid (get_points proc.truth_point_mode p) p]) := by
  simp [processOne, check_units, hu, ht, List.isEmpty_iff, hp]

theorem processOne_truth (proc : CalibrationProcessor)
    (calib : CalibCall → List ℚ) (rid : Option Int) (st : Tensors)
    (p : Particle) (hu : p.units = "cm")
    (hp : get_points proc.truth_point_mode p ≠ [])
    (ht : p.is_truth = true) :
    processOne proc calib rid st p =
      .ok (setAttrDeps proc.truth_dep_attr
             (calib (calibCallFor proc rid (get_points proc.truth_point_mode p) p)) p,
           setAssoc st proc.truth_dep_key
             (calib (calibCallFor proc rid (get_points proc.truth_point_mode p) p)),
           [calibCallFor proc rid (get_points proc.truth_point_mode p) p]) := by
  simp [processOne, check_units, hu, ht, List.isEmpty_iff, hp]

theorem processOne_err_is_unit (proc : CalibrationProcessor)
    (calib : CalibCall → List ℚ) (rid : Option Int) (st : Tensors)
    (p : Particle) (e : PErr)
    (h : processOne proc calib rid st p = .error e) : e = .unitError := by
  by_cases hu : p.units = "cm"
  · by_cases hp : get_points proc.truth_point_mode p = []
    · rw [processOne_skip proc calib rid st p hu hp] at h
      exact absurd h (by simp)
    · cases ht : p.is_truth with
      | false =>
        rw [processOne_reco proc calib rid st p hu hp ht] at h
        exact absurd h (by simp)
      | true =>
        rw [processOne_truth proc calib rid st p hu hp ht] at h
        exact absurd h (by simp)
  · rw [processOne_unit_err proc calib rid st p hu] at h
    cases h
    rfl

theorem processOne_ok_of_units (proc : CalibrationProcessor)
    (calib : CalibCall → List ℚ) (rid : Option Int) (st : Tensors)
    (p : Particle) (hu : p.units = "cm") :
    ∃ p' st' cs, processOne proc calib rid st p = .ok (p', st', cs) := by
  by_cases hp : get_points proc.truth_point_mode p = []
  · exact ⟨p, st, [], processOne_skip proc calib rid st p hu hp⟩
  · cases ht : p.is_truth with
    | false => exact ⟨_, _, _, processOne_reco proc calib rid st p hu hp ht⟩
    | true => exact ⟨_, _, _, processOne_truth proc calib rid st p hu hp ht⟩

theorem processList_nil (proc : CalibrationProcessor)
    (calib : CalibCall → List ℚ) (rid : Option Int) (st : Tensors) :
    processList proc calib rid [] st = ⟨[], st, [], none⟩ := rfl

theorem processList_cons_err (proc : CalibrationProcessor)
    (calib : CalibCall → List ℚ) (rid : Option Int) (st : Tensors)
    (p : Particle) (rest : List Particle) (e : PErr)
    (h : processOne proc calib rid st p = .error e) :
    processList proc calib rid (p :: rest) st = ⟨p :: rest, st, [], some e⟩ := by
  simp [processList, h]

theorem processList_cons_ok (proc : CalibrationProcessor)
    (calib : CalibCall → List ℚ) (rid : Option Int) (st : Tensors)
    (p p' : Particle) (rest : List Particle) (st' : Tensors)
    (cs : List CalibCall)
    (h : processOne proc calib rid st p = .ok (p', st', cs)) :
    processList proc calib rid (p :: rest) st =
      ⟨p' :: (processList proc calib rid rest st').particles,
       (processList proc calib rid rest st').tensors,
       cs ++ (processList proc calib rid rest st').calls,
       (processList proc calib rid rest st').err⟩ := by
  simp [processList, h]

theorem processList_err_none (proc : CalibrationProcessor)
    (calib : CalibCall → List ℚ) (rid : Option Int) (parts : List Particle)
    (st : Tensors) (h : ∀ p ∈ parts, p.units = "cm") :
    (processList proc calib rid parts st).err = none := by
  induction parts generalizing st with
  | nil => rfl
  | cons p rest ih =>
    obtain ⟨p', st', cs, hok⟩ :=
      processOne_ok_of_units proc calib rid st p (h p (List.mem_cons_self p rest))
    rw [processList_cons_ok proc calib rid st p p' rest st' cs hok]
    exact ih st' (fun q hq => h q (List.mem_cons_of_mem _ hq))

theorem processList_err_cases (proc : CalibrationProcessor)
    (calib : CalibCall → List ℚ) (rid : Option Int) (parts : List Particle)
    (st : Tensors) :
    (processList proc calib rid parts st).err = none ∨
      (processList proc calib rid parts st).err = some .unitError := by
  induction parts generalizing st with
  | nil => exact Or.inl rfl
  | cons p rest ih =>
    cases hr : processOne proc calib rid st p with
    | error e =>
      rw [processList_cons_err proc calib rid st p rest e hr]
      exact Or.inr (by rw [processOne_err_is_unit proc calib rid st p e hr])
    | ok out =>
      obtain ⟨p', st', cs⟩ := out
      rw [processList_cons_ok proc calib rid st p p' rest st' cs hr]
      exact ih st'

theorem processList_length (proc : CalibrationProcessor)
    (calib : CalibCall → List ℚ) (rid : Option Int) (parts : List Particle)
    (st : Tensors) :
    (processList proc calib rid parts st).particles.length = parts.length := by
  induction parts generalizing st with
  | nil => rfl
  | cons p rest ih =>
    cases hr : processOne proc calib rid st p with
    | error e => rw [processList_cons_err proc calib rid st p rest e hr]
    | ok out =>
      obtain ⟨p', st', cs⟩ := out
      rw [processList_cons_ok proc calib rid st p p' rest st' cs hr]
      simp [ih st']

theorem processList_append_ok (proc : CalibrationProcessor)
    (calib : CalibCall → List ℚ) (rid : Option Int)
    (xs ys : List Particle) (st : Tensors)
    (h : ∀ p ∈ xs, p.units = "cm") :
    processList proc calib rid (xs ++ ys) st =
      ⟨(processList proc calib rid xs st).particles ++
         (processList proc calib rid ys
           (processList proc calib rid xs st).tensors).particles,
       (processList proc calib rid ys
         (processList proc calib rid xs st).tensors).tensors,
       (processList proc calib rid xs st).calls ++
         (processList proc calib rid ys
           (processList proc calib rid xs st).tensors).calls,
       (processList proc calib rid ys
         (processList proc calib rid xs st).tensors).err⟩ := by
  induction xs generalizing st with
  | nil => simp [processList_nil]
  | cons p rest ih =>
    obtain ⟨p', st', cs, hok⟩ :=
      processOne_ok_of_units proc calib rid st p (h p (List.mem_cons_self p rest))
    rw [List.cons_append,
        processList_cons_ok proc calib rid st p p' (rest ++ ys) st' cs hok,
        processList_cons_ok proc calib rid st p p' rest st' cs hok,
        ih st' (fun q hq => h q (List.mem_cons_of_mem _ hq))]
    simp

theorem depsOf_calibCallFor (proc : CalibrationProcessor) (rid : Option Int)
    (pts : List Point3) (p : Particle) :
    (calibCallFor proc rid pts p).depsOf = p.depositions := by
  unfold calibCallFor
  split <;> rfl

theorem setAttrDeps_is_truth (a : String) (v : List ℚ) (p : Particle) :
    (setAttrDeps a v p).is_truth = p.is_truth := by
  unfold setAttrDeps
  by_cases h1 : a = "depositions_q" <;> by_cases h2 : a = "depositions_adapt_q" <;>
    simp [h1, h2]

theorem readAt_congr (t t' : List ℚ) (idx : List Nat)
    (h : ∀ i ∈ idx, nth t i = nth t' i) : readAt t idx = readAt t' idx := by
  induction idx with
  | nil => rfl
  | cons i is ih =>
    simp only [readAt, List.map_cons]
    simp only [readAt] at ih
    rw [h i (List.mem_cons_self i is),
        ih (fun j hj => h j (List.mem_cons_of_mem _ hj))]

theorem getD_append_cons {α : Type} (xs : List α) (y : α) (ys : List α)
    (d : α) : (xs ++ y :: ys).getD xs.length d = y := by
  induction xs with
  | nil => rfl
  | cons a xs ih => simpa using ih

theorem processList_preserves_key (proc : CalibrationProcessor)
    (calib : CalibCall → List ℚ) (rid : Option Int) (post : List Particle)
    (st : Tensors)
    (h6 : ∀ q ∈ post, q.is_truth = true → get_points proc.truth_point_mode q = [])
    (h7 : proc.truth_dep_key ≠ "depositions" ∨ ∀ q ∈ post, q.is_truth = true) :
    lookupAssoc (processList proc calib rid post st).tensors proc.truth_dep_key
      = lookupAssoc st proc.truth_dep_key := by
  induction post generalizing st with
  | nil => rfl
  | cons q rest ih =>
    have h6r : ∀ x ∈ rest, x.is_truth = true → get_points proc.truth_point_mode x = [] :=
      fun x hx => h6 x (List.mem_cons_of_mem _ hx)
    have h7r : proc.truth_dep_key ≠ "depositions" ∨ ∀ x ∈ rest, x.is_truth = true := by
      cases h7 with
      | inl h => exact Or.inl h
      | inr h => exact Or.inr (fun x hx => h x (List.mem_cons_of_mem _ hx))
    by_cases hu : q.units = "cm"
    · by_cases hp : get_points proc.truth_point_mode q = []
      · rw [processList_cons_ok proc calib rid st q q rest st []
              (processOne_skip proc calib rid st q hu hp)]
        exact ih st h6r h7r
      · cases ht : q.is_truth with
        | true => exact absurd (h6 q (List.mem_cons_self q rest) ht) hp
        | false =>
          have hkey : proc.truth_dep_key ≠ "depositions" := by
            cases h7 with
            | inl h => exact h
            | inr h => rw [h q (List.mem_cons_self q rest)] at ht; cases ht
          rw [processList_cons_ok proc calib rid st q _ rest _ _
                (processOne_reco proc calib rid st q hu hp ht)]
          rw [ih _ h6r h7r]
          exact lookupAssoc_setAssoc_ne st "depositions" proc.truth_dep_key _ hkey
    · rw [processList_cons_err proc calib rid st q rest .unitError
            (processOne_unit_err proc calib rid st q hu)]

theorem pyEval_not_expression_error (e : PyExpr) :
    isExpressionError (pyEval e) = false := by
  induction e with
  | num q => rfl
  | strlit s => rfl
  | add a b iha ihb =>
    simp only [pyEval]
    cases ha : pyEval a with
    | exn s => simpa [ha] using iha
    | val va =>
      cases hb : pyEval b with
      | exn s => simpa [hb] using ihb
      | val vb => cases va <;> cases vb <;> rfl
  | sub a b iha ihb =>
    simp only [pyEval]
    cases ha : pyEval a with
    | exn s => simpa [ha] using iha
    | val va =>
      cases hb : pyEval b with
      | exn s => simpa [hb] using ihb
      | val vb => cases va <;> cases vb <;> rfl
  | mul a b iha ihb =>
    simp only [pyEval]
    cases ha : pyEval a with
    | exn s => simpa [ha] using iha
    | val va =>
      cases hb : pyEval b with
      | exn s => simpa [hb] using ihb
      | val vb => cases va <;> cases vb <;> rfl
  | div a b iha ihb =>
    simp only [pyEval]
    cases ha : pyEval a with
    | exn s => simpa [ha] using iha
    | val va =>
      cases hb : pyEval b with
      | exn s => simpa [hb] using ihb
      | val vb =>
        cases va with
        | num x =>
          cases vb with
          | num y =>
            by_cases hy : y = 0
            · simp [hy, isExpressionError]
            · simp [hy, isExpressionError]
          | str s => rfl
          | obj o => rfl
        | str s => cases vb <;> rfl
        | obj o => cases vb <;> rfl
  | neg a iha =>
    simp only [pyEval]
    cases ha : pyEval a with
    | exn s => simpa [ha] using iha
    | val va => cases va <;> rfl
  | call f a iha =>
    simp only [pyEval]
    cases ha : pyEval a with
    | exn s => simpa [ha] using iha
    | val va =>
      by_cases hf : f ∈ pyBuiltins
      · simp [hf, isExpressionError]
      · simp [hf, isExpressionError]

theorem processList_reco_alias_inv (proc : CalibrationProcessor)
    (calib : CalibCall → List ℚ) (rid : Option Int)
    (Hcal : ∀ c, (calib c).length = c.depsOf.length) :
    ∀ (parts : List Particle) (st : Tensors),
      (∀ p ∈ parts, p.units = "cm") →
      (∀ p ∈ parts, p.is_truth = false → p.index.Nodup) →
      (∀ p ∈ parts, p.is_truth = false → p.index.length = p.depositions.length) →
      (∀ p ∈ parts, p.is_truth = false →
        ∀ i ∈ p.index, i < ((lookupAssoc st "depositions").getD []).length) →
      List.Pairwise (fun p q => p.is_truth = false → q.is_truth = false →
        ∀ i ∈ p.index, i ∉ q.index) parts →
      (proc.truth_dep_key ≠ "depositions" ∨ ∀ p ∈ parts, p.is_truth = false) →
      ((processList proc calib rid parts st).err = none ∧
       ((lookupAssoc (processList proc calib rid parts st).tensors
           "depositions").getD []).length
         = ((lookupAssoc st "depositions").getD []).length ∧
       (∀ i : Nat, (∀ p ∈ parts, p.is_truth = false → i ∉ p.index) →
         nth ((lookupAssoc (processList proc calib rid parts st).tensors
             "depositions").getD []) i
           = nth ((lookupAssoc st "depositions").getD []) i) ∧
       (∀ p' ∈ (processList proc calib rid parts st).particles,
         p'.is_truth = false → p'.points ≠ [] →
         readAt ((lookupAssoc (processList proc calib rid parts st).tensors
             "depositions").getD []) p'.index
           = p'.depositions)) := by
  intro parts
  induction parts with
  | nil =>
    intro st h1 h2 h3 h4 h5 h6
    refine ⟨rfl, rfl, fun i _ => rfl, ?_⟩
    intro p' hp'
    simp [processList_nil] at hp'
  | cons p rest ih =>
    intro st h1 h2 h3 h4 h5 h6
    have hu : p.units = "cm" := h1 p (List.mem_cons_self p rest)
    have h1r : ∀ q ∈ rest, q.units = "cm" :=
      fun q hq => h1 q (List.mem_cons_of_mem _ hq)
    have h2r : ∀ q ∈ rest, q.is_truth = false → q.index.Nodup :=
      fun q hq => h2 q (List.mem_cons_of_mem _ hq)
    have h3r : ∀ q ∈ rest, q.is_truth = false →
        q.index.length = q.depositions.length :=
      fun q hq => h3 q (List.mem_cons_of_mem _ hq)
    have h5p : ∀ q ∈ rest, p.is_truth = false → q.is_truth = false →
        ∀ i ∈ p.index, i ∉ q.index := (List.pairwise_cons.mp h5).1
    have h5r := (List.pairwise_cons.mp h5).2
    have h6r : proc.truth_dep_key ≠ "depositions" ∨
        ∀ q ∈ rest, q.is_truth = false := by
      cases h6 with
      | inl h => exact Or.inl h
      | inr h => exact Or.inr (fun q hq => h q (List.mem_cons_of_mem _ hq))
    by_cases hp : get_points proc.truth_point_mode p = []
    · rw [processList_cons_ok proc calib rid st p p rest st []
            (processOne_skip proc calib rid st p hu hp)]
      obtain ⟨e1, e2, e3, e4⟩ := ih st h1r h2r h3r
        (fun q hq hq' => h4 q (List.mem_cons_of_mem _ hq) hq') h5r h6r
      refine ⟨e1, e2,
        fun i hi => e3 i (fun q hq => hi q (List.mem_cons_of_mem _ hq)), ?_⟩
      intro p' hp' ht' hpts'
      rcases List.mem_cons.mp hp' with rfl | hm
      · exact absurd (by simpa [get_points, ht'] using hp) hpts'
      · exact e4 p' hm ht' hpts'
    · cases ht : p.is_truth with
      | true =>
        have hkey : proc.truth_dep_key ≠ "depositions" := by
          cases h6 with
          | inl h => exact h
          | inr h => rw [h p (List.mem_cons_self p rest)] at ht; cases ht
        rw [processList_cons_ok proc calib rid st p _ rest _ _
              (processOne_truth proc calib rid st p hu hp ht)]
        have hDkeep : lookupAssoc (setAssoc st proc.truth_dep_key
              (calib (calibCallFor proc rid
                (get_points proc.truth_point_mode p) p))) "depositions"
            = lookupAssoc st "depositions" :=
          lookupAssoc_setAssoc_ne st proc.truth_dep_key "depositions" _
            (Ne.symm hkey)
        obtain ⟨e1, e2, e3, e4⟩ := ih
          (setAssoc st proc.truth_dep_key
            (calib (calibCallFor proc rid (get_points proc.truth_point_mode p) p)))
          h1r h2r h3r
          (fun q hq hq' i hi => by
            rw [hDkeep]
            exact h4 q (List.mem_cons_of_mem _ hq) hq' i hi)
          h5r h6r
        rw [hDkeep] at e2 e3
        refine ⟨e1, e2,
          fun i hi => e3 i (fun q hq => hi q (List.mem_cons_of_mem _ hq)), ?_⟩
        intro p' hp' ht' hpts'
        rcases List.mem_cons.mp hp' with rfl | hm
        · rw [setAttrDeps_is_truth] at ht'
          rw [ht] at ht'
          cases ht'
        · exact e4 p' hm ht' hpts'
      | false =>
        have hnd := h2 p (List.mem_cons_self p rest) ht
        have hlen := h3 p (List.mem_cons_self p rest) ht
        have hbnd := h4 p (List.mem_cons_self p rest) ht
        rw [processList_cons_ok proc calib rid st p _ rest _ _
              (processOne_reco proc calib rid st p hu hp ht)]
        have hvals : (calib (calibCallFor proc rid
            (get_points proc.truth_point_mode p) p)).length = p.index.length := by
          rw [Hcal, depsOf_calibCallFor]
          exact hlen.symm
        have hD' : lookupAssoc (setAssoc st "depositions"
              (writeAt ((lookupAssoc st "depositions").getD []) p.index
                (calib (calibCallFor proc rid
                  (get_points proc.truth_point_mode p) p)))) "depositions"
            = some (writeAt ((lookupAssoc st "depositions").getD []) p.index
                (calib (calibCallFor proc rid
                  (get_points proc.truth_point_mode p) p))) :=
          lookupAssoc_setAssoc_self st "depositions" _
        obtain ⟨e1, e2, e3, e4⟩ := ih
          (setAssoc st "depositions"
            (writeAt ((lookupAssoc st "depositions").getD []) p.index
              (calib (calibCallFor proc rid
                (get_points proc.truth_point_mode p) p))))
          h1r h2r h3r
          (fun q hq hq' i hi => by
            rw [hD']
            simpa [writeAt_length] using h4 q (List.mem_cons_of_mem _ hq) hq' i hi)
          h5r h6r
        rw [hD'] at e2 e3
        refine ⟨e1, ?_, ?_, ?_⟩
        · rw [e2]
          simp [writeAt_length]
        · intro i hi
          rw [e3 i (fun q hq => hi q (List.mem_cons_of_mem _ hq))]
          simp only [Option.getD_some]
          exact nth_writeAt_notin p.index _ _ i
            (hi p (List.mem_cons_self p rest) ht)
        · intro p' hp' ht' hpts'
          rcases List.mem_cons.mp hp' with rfl | hm
          · have hstep : ∀ i ∈ p.index,
                nth ((lookupAssoc (processList proc calib rid rest
                    (setAssoc st "depositions"
                      (writeAt ((lookupAssoc st "depositions").getD []) p.index
                        (calib (calibCallFor proc rid
                          (get_points proc.truth_point_mode p) p))))).tensors
                    "depositions").getD []) i
                  = nth (writeAt ((lookupAssoc st "depositions").getD []) p.index
                      (calib (calibCallFor proc rid
                        (get_points proc.truth_point_mode p) p))) i := by
              intro i him
              have := e3 i (fun q hq hq' => h5p q hq ht hq' i him)
              simpa using this
            show readAt _ p.index
              = calib (calibCallFor proc rid (get_points proc.truth_point_mode p) p)
            rw [readAt_congr _ _ p.index hstep]
            exact readAt_writeAt p.index _ _ hnd hvals.symm hbnd
          · exact e4 p' hm ht' hpts'

/-- C1: For every particle in the configured object collections,
CalorimetricEnergyProcessor.process sets calo_ke to scaling * sum(
get_depositions(p)) when the shape is TRACK, and to
scaling * shower_fudge * sum(get_depositions(p)) otherwise; a particle whose
deposition sequence is empty gets calo_ke = 0. -/
theorem calo_ke_formula (proc : CalorimetricEnergyProcessor) (data : Entry) :
    CalorimetricEnergyProcessor.process proc data
      = (iterParts proc.obj_type proc.run_mode data).map
          (fun p => { p with calo_ke :=
              (if p.shape = TRACK_SHP then proc.scaling
               else proc.scaling * proc.shower_fudge)
                * (get_depositions proc.truth_dep_mode p).sum })
    ∧ ∀ p ∈ iterParts proc.obj_type proc.run_mode data,
        get_depositions proc.truth_dep_mode p = [] →
        (caloStep proc p).calo_ke = 0 := by
  constructor
  · unfold CalorimetricEnergyProcessor.process
    apply List.map_congr_left
    intro p hp
    unfold caloStep
    by_cases h : p.shape = TRACK_SHP
    · simp [h]
    · simp [h]
  · intro p hp h
    simp [caloStep, h]

/-- C1 witness: a concrete particle with no depositions gets calo_ke = 0. -/
theorem calo_ke_formula_witness : (caloStep procC1 blankParticle).calo_ke = 0 :=
  (calo_ke_formula procC1 dataC1).2 blankParticle (by decide) (by decide)

/-- C7 counterexample: a malformed scaling string raises SyntaxError, not
ExpressionError, and a non-arithmetic expression (a call importing a module,
i.e. arbitrary code execution) is evaluated successfully rather than
rejected. -/
theorem scaling_eval_unrestricted_cex :
    resolveFactor (.str .malformed) = .exn "SyntaxError"
    ∧ isExpressionError (resolveFactor (.str .malformed)) = false
    ∧ resolveFactor (.str (.parsed (.call "__import__" (.strlit "os"))))
        = .val (.obj "__import__")
    ∧ isSafeArith (.call "__import__" (.strlit "os")) = false := by
  exact ⟨rfl, rfl, rfl, rfl⟩

/-- C7 amended: a string scaling or shower_fudge value is handed once, at
construction, to Python's builtin unrestricted eval: any parsed expression is
evaluated (including calls, i.e. arbitrary code execution, which succeed),
a malformed string raises Python's SyntaxError, and no ExpressionError is
ever raised. -/
theorem scaling_eval_unrestricted :
    (∀ pe : PyExpr, resolveFactor (.str (.parsed pe)) = pyEval pe)
    ∧ (∀ q : ℚ, resolveFactor (.num q) = .val (.num q))
    ∧ resolveFactor (.str .malformed) = .exn "SyntaxError"
    ∧ (∀ s : PyStrSource, isExpressionError (resolveFactor (.str s)) = false)
    ∧ (∃ e : PyExpr, isSafeArith e = false ∧ ∃ v, pyEval e = .val v) := by
  refine ⟨fun pe => rfl, fun q => rfl, rfl, ?_, ?_⟩
  · intro s
    cases s with
    | parsed e => exact pyEval_not_expression_error e
    | malformed => rfl
  · exact ⟨.call "__import__" (.strlit "os"), rfl, ⟨.obj "__import__", rfl⟩⟩

/-- Sanity check of the factory semantics: node_layer_construct resolves all
of its forwarded names and instantiates a Node layer. -/
theorem node_layer_construct_instantiates (cfg node_in edge_in glob_in : GVal) :
    node_layer_construct cfg node_in edge_in glob_in
      = ([GEvent.instantiated "Node"], .ok (.layerInstance "Node")) := rfl

/-- C10: every call of global_layer_construct raises NameError on the unbound
name edge_in before any layer is instantiated (the event trace is empty), and
the glob_in parameter is never forwarded by the returned call. -/
theorem global_layer_construct_name_error (cfg node_in glob_in : GVal) :
    global_layer_construct cfg node_in glob_in
      = ([], .error (.nameError "edge_in"))
    ∧ "glob_in" ∉ global_layer_construct_def.ret.refNames := by
  exact ⟨rfl, by decide⟩

/-- C6: the truth_point_mode lookup tables have exactly the two entries
points -> (depositions_q, depositions_label_q) and points_adapt ->
(depositions_adapt_q, depositions); construction with any other mode raises
ConfigurationError, and per-entry processing can never fail with a
configuration or key lookup error (only UnitError). -/
theorem calibration_truth_mode_table :
    (∀ (dedx : ℚ) (dt : Bool) (ot rm m : String),
       m ≠ "points" → m ≠ "points_adapt" →
       CalibrationProcessor.init dedx dt ot rm m = .error .configurationError)
    ∧ (∀ (dedx : ℚ) (dt : Bool) (ot rm : String), ∃ pr,
         CalibrationProcessor.init dedx dt ot rm "points" = .ok pr
         ∧ pr.truth_dep_attr = "depositions_q"
         ∧ pr.truth_dep_key = "depositions_label_q")
    ∧ (∀ (dedx : ℚ) (dt : Bool) (ot rm : String), ∃ pr,
         CalibrationProcessor.init dedx dt ot rm "points_adapt" = .ok pr
         ∧ pr.truth_dep_attr = "depositions_adapt_q"
         ∧ pr.truth_dep_key = "depositions")
    ∧ (∀ (proc : CalibrationProcessor) (calib : CalibCall → List ℚ)
         (rid : Option Int) (parts : List Particle) (st : Tensors),
         (processList proc calib rid parts st).err = none
         ∨ (processList proc calib rid parts st).err = some .unitError) := by
  refine ⟨?_, ?_, ?_, processList_err_cases⟩
  · intro dedx dt ot rm m hm1 hm2
    unfold CalibrationProcessor.init postBaseValidate
    simp [hm1, hm2]
  · intro dedx dt ot rm
    exact ⟨_, rfl, rfl, rfl⟩
  · intro dedx dt ot rm
    exact ⟨_, rfl, rfl, rfl⟩

/-- C6 witness: construction with the unrecognized mode 'bogus' raises
ConfigurationError. -/
theorem calibration_truth_mode_table_witness :
    CalibrationProcessor.init 2 false "particle" "reco" "bogus"
      = .error .configurationError :=
  calibration_truth_mode_table.1 2 false "particle" "reco" "bogus"
    (by decide) (by decide)

/-- C8 counterexample: with run_mode 'reco' (which includes reco) and
truth_point_mode 'points_adapt', construction succeeds but the shared
'depositions' tensor key ends up declared optional (false), because the
resolved truth key is 'depositions' itself and its assignment overwrites the
reco one. -/
theorem calibration_keys_cex :
    (CalibrationProcessor.init 2 false "particle" "reco" "points_adapt").toOption.map
        (fun pr => (lookupAssoc pr.keys "depositions", pr.truth_dep_key))
      = some (some false, "depositions")
    ∧ includesReco "reco" = true := by
  exact ⟨rfl, rfl⟩

/-- C8 amended: after construction, the resolved truth tensor key is declared
required iff run_mode includes truth; the shared 'depositions' key is
declared required iff run_mode includes reco when the resolved truth key is a
different key, but when the resolved truth key is 'depositions' itself
(truth_point_mode 'points_adapt') the later truth-key assignment overwrites
it, leaving 'depositions' required iff run_mode includes truth. -/
theorem calibration_keys_requirements (dedx : ℚ) (dt : Bool) (ot rm tpm : String)
    (hrm : rm = "reco" ∨ rm = "truth" ∨ rm = "both")
    (htpm : tpm = "points" ∨ tpm = "points_adapt") :
    ∃ pr, CalibrationProcessor.init dedx dt ot rm tpm = .ok pr
      ∧ lookupAssoc pr.keys pr.truth_dep_key = some (includesTruth rm)
      ∧ (pr.truth_dep_key ≠ "depositions" →
          lookupAssoc pr.keys "depositions" = some (includesReco rm))
      ∧ (pr.truth_dep_key = "depositions" →
          lookupAssoc pr.keys "depositions" = some (includesTruth rm)) := by
  rcases htpm with h | h <;> subst h <;>
    rcases hrm with h' | h' | h' <;> subst h'
  · exact ⟨_, rfl, rfl, fun _ => rfl,
      fun hc => absurd (show ("depositions_label_q" : String) = "depositions" from hc) (by decide)⟩
  · exact ⟨_, rfl, rfl, fun _ => rfl,
      fun hc => absurd (show ("depositions_label_q" : String) = "depositions" from hc) (by decide)⟩
  · exact ⟨_, rfl, rfl, fun _ => rfl,
      fun hc => absurd (show ("depositions_label_q" : String) = "depositions" from hc) (by decide)⟩
  · exact ⟨_, rfl, rfl, fun hc => absurd rfl hc, fun _ => rfl⟩
  · exact ⟨_, rfl, rfl, fun hc => absurd rfl hc, fun _ => rfl⟩
  · exact ⟨_, rfl, rfl, fun hc => absurd rfl hc, fun _ => rfl⟩

/-- C8 witness: the requirement layout at run_mode 'both' with
truth_point_mode 'points'. -/
theorem calibration_keys_requirements_witness :
    ∃ pr, CalibrationProcessor.init 2 false "particle" "both" "points" = .ok pr
      ∧ lookupAssoc pr.keys pr.truth_dep_key = some (includesTruth "both")
      ∧ (pr.truth_dep_key ≠ "depositions" →
          lookupAssoc pr.keys "depositions" = some (includesReco "both"))
      ∧ (pr.truth_dep_key = "depositions" →
          lookupAssoc pr.keys "depositions" = some (includesTruth "both")) :=
  calibration_keys_requirements 2 false "particle" "both" "points"
    (by decide) (by decide)

/-- C3: for a particle with valid units and non-empty points, the
collaborator is invoked exactly once: in simple mode with (points,
depositions, sources, run_id, dedx) when do_tracking is off or the shape is
not TRACK, and in track-segmented mode with (points, depositions, sources,
run_id, track=True) otherwise. -/
theorem calibration_dispatch (proc : CalibrationProcessor)
    (calib : CalibCall → List ℚ) (rid : Option Int) (st : Tensors)
    (p : Particle) (hu : p.units = "cm")
    (hp : get_points proc.truth_point_mode p ≠ []) :
    ((proc.do_tracking = false ∨ p.shape ≠ TRACK_SHP) →
      ∃ p' st', processOne proc calib rid st p =
        .ok (p', st', [CalibCall.simple (get_points proc.truth_point_mode p)
              p.depositions p.sources rid proc.dedx]))
    ∧ ((proc.do_tracking = true ∧ p.shape = TRACK_SHP) →
      ∃ p' st', processOne proc calib rid st p =
        .ok (p', st', [CalibCall.tracked (get_points proc.truth_point_mode p)
              p.depositions p.sources rid])) := by
  constructor
  · intro hcond
    have hcall : calibCallFor proc rid (get_points proc.truth_point_mode p) p
        = .simple (get_points proc.truth_point_mode p) p.depositions
            p.sources rid proc.dedx := by
      unfold calibCallFor
      rw [if_pos hcond]
    cases ht : p.is_truth with
    | false =>
      have h := processOne_reco proc calib rid st p hu hp ht
      rw [hcall] at h
      exact ⟨_, _, h⟩
    | true =>
      have h := processOne_truth proc calib rid st p hu hp ht
      rw [hcall] at h
      exact ⟨_, _, h⟩
  · intro hcond
    have hcond' : ¬(proc.do_tracking = false ∨ p.shape ≠ TRACK_SHP) := by
      rw [hcond.1]
      simp [hcond.2]
    have hcall : calibCallFor proc rid (get_points proc.truth_point_mode p) p
        = .tracked (get_points proc.truth_point_mode p) p.depositions
            p.sources rid := by
      unfold calibCallFor
      rw [if_neg hcond']
    cases ht : p.is_truth with
    | false =>
      have h := processOne_reco proc calib rid st p hu hp ht
      rw [hcall] at h
      exact ⟨_, _, h⟩
    | true =>
      have h := processOne_truth proc calib rid st p hu hp ht
      rw [hcall] at h
      exact ⟨_, _, h⟩

/-- C3 witness: with do_tracking off, a concrete shower particle is
calibrated through the simple-mode signature. -/
theorem calibration_dispatch_witness :
    ∃ p' st', processOne procPoints calibId none [("depositions", [10, 20])] pRecoEx
      = .ok (p', st', [CalibCall.simple pRecoEx.points pRecoEx.depositions
            pRecoEx.sources none procPoints.dedx]) :=
  (calibration_dispatch procPoints calibId none [("depositions", [10, 20])]
    pRecoEx (by decide) (by decide)).1 (by decide)

/-- C4: a particle whose resolved point sequence is empty is skipped: no
collaborator call, the particle and every shared tensor unchanged (the only
other possibility is the UnitError raised by check_units, which also leaves
everything unchanged). -/
theorem calibration_empty_points_noop (proc : CalibrationProcessor)
    (calib : CalibCall → List ℚ) (rid : Option Int) (st : Tensors)
    (p : Particle) (h : get_points proc.truth_point_mode p = []) :
    processOne proc calib rid st p = .ok (p, st, [])
    ∨ processOne proc calib rid st p = .error .unitError := by
  by_cases hu : p.units = "cm"
  · exact Or.inl (processOne_skip proc calib rid st p hu h)
  · exact Or.inr (processOne_unit_err proc calib rid st p hu)

/-- C4 witness: a concrete particle without points is a no-op. -/
theorem calibration_empty_points_noop_witness :
    processOne procPoints calibId none [("depositions", [10, 20])] blankParticle
      = .ok (blankParticle, [("depositions", [10, 20])], [])
    ∨ processOne procPoints calibId none [("depositions", [10, 20])] blankParticle
      = .error .unitError :=
  calibration_empty_points_noop procPoints calibId none
    [("depositions", [10, 20])] blankParticle (by decide)

/-- C9: if check_units fails on some particle, the UnitError propagates out
of the loop, the failing particle and all later ones are left unprocessed and
unmutated (no collaborator calls for them), and the writes of the particles
before the failure persist in the returned state. -/
theorem calibration_unit_error_aborts (proc : CalibrationProcessor)
    (calib : CalibCall → List ℚ) (rid : Option Int) (st : Tensors)
    (pre : List Particle) (bad : Particle) (post : List Particle)
    (h1 : ∀ p ∈ pre, p.units = "cm") (h2 : bad.units ≠ "cm") :
    processList proc calib rid (pre ++ bad :: post) st =
      ⟨(processList proc calib rid pre st).particles ++ bad :: post,
       (processList proc calib rid pre st).tensors,
       (processList proc calib rid pre st).calls,
       some .unitError⟩ := by
  rw [processList_append_ok proc calib rid pre (bad :: post) st h1]
  rw [processList_cons_err proc calib rid
        (processList proc calib rid pre st).tensors bad post .unitError
        (processOne_unit_err proc calib rid
          (processList proc calib rid pre st).tensors bad h2)]
  simp

/-- C9 witness: a concrete three-particle entry where the middle particle has
bad units. -/
theorem calibration_unit_error_aborts_witness :
    processList procPoints calibId none ([pRecoEx] ++ pBadUnits :: [pRecoEx2])
        [("depositions", [10, 20])] =
      ⟨(processList procPoints calibId none [pRecoEx]
          [("depositions", [10, 20])]).particles ++ pBadUnits :: [pRecoEx2],
       (processList procPoints calibId none [pRecoEx]
          [("depositions", [10, 20])]).tensors,
       (processList procPoints calibId none [pRecoEx]
          [("depositions", [10, 20])]).calls,
       some .unitError⟩ :=
  calibration_unit_error_aborts procPoints calibId none
    [("depositions", [10, 20])] [pRecoEx] pBadUnits [pRecoEx2]
    (by decide) (by decide)

/-- C5: a truth particle t with non-empty resolved points gets the corrected
deposition sequence written to the truth deposition attribute resolved at
construction, and the shared tensor under the resolved truth key is replaced
wholesale by that same sequence; hence after the loop that tensor holds the
corrected depositions of the last truth particle that reached the write
(hypotheses: the particles after t make no further write to that key, which
the reco-before-truth iteration order guarantees). -/
theorem calibration_truth_write (proc : CalibrationProcessor)
    (calib : CalibCall → List ℚ) (rid : Option Int) (st : Tensors)
    (pre : List Particle) (t : Particle) (post : List Particle)
    (h1 : ∀ p ∈ pre, p.units = "cm") (h2 : t.units = "cm")
    (h3 : t.is_truth = true)
    (h4 : get_points proc.truth_point_mode t ≠ [])
    (h5 : ∀ q ∈ post, q.is_truth = true → get_points proc.truth_point_mode q = [])
    (h6 : proc.truth_dep_key ≠ "depositions" ∨ ∀ q ∈ post, q.is_truth = true) :
    lookupAssoc (processList proc calib rid (pre ++ t :: post) st).tensors
        proc.truth_dep_key
      = some (calib (calibCallFor proc rid (get_points proc.truth_point_mode t) t))
    ∧ (processList proc calib rid (pre ++ t :: post) st).particles.getD
          pre.length t
      = setAttrDeps proc.truth_dep_attr
          (calib (calibCallFor proc rid (get_points proc.truth_point_mode t) t)) t := by
  rw [processList_append_ok proc calib rid pre (t :: post) st h1]
  rw [processList_cons_ok proc calib rid
        (processList proc calib rid pre st).tensors t _ post _ _
        (processOne_truth proc calib rid
          (processList proc calib rid pre st).tensors t h2 h4 h3)]
  constructor
  · rw [show (⟨(processList proc calib rid pre st).particles ++
          (setAttrDeps proc.truth_dep_attr
              (calib (calibCallFor proc rid (get_points proc.truth_point_mode t) t)) t ::
            (processList proc calib rid post
                (setAssoc (processList proc calib rid pre st).tensors
                  proc.truth_dep_key
                  (calib (calibCallFor proc rid
                    (get_points proc.truth_point_mode t) t)))).particles),
          (processList proc calib rid post
              (setAssoc (processList proc calib rid pre st).tensors
                proc.truth_dep_key
                (calib (calibCallFor proc rid
                  (get_points proc.truth_point_mode t) t)))).tensors,
          (processList proc calib rid pre st).calls ++
            ([calibCallFor proc rid (get_points proc.truth_point_mode t) t] ++
              (processList proc calib rid post
                  (setAssoc (processList proc calib rid pre st).tensors
                    proc.truth_dep_key
                    (calib (calibCallFor proc rid
                      (get_points proc.truth_point_mode t) t)))).calls),
          (processList proc calib rid post
              (setAssoc (processList proc calib rid pre st).tensors
                proc.truth_dep_key
                (calib (calibCallFor proc rid
                  (get_points proc.truth_point_mode t) t)))).err⟩ : RunOut).tensors
        = (processList proc calib rid post
            (setAssoc (processList proc calib rid pre st).tensors
              proc.truth_dep_key
              (calib (calibCallFor proc rid
                (get_points proc.truth_point_mode t) t)))).tensors from rfl]
    rw [processList_preserves_key proc calib rid post _ h5 h6]
    exact lookupAssoc_setAssoc_self _ proc.truth_dep_key _
  · have hlen : (processList proc calib rid pre st).particles.length
        = pre.length := processList_length proc calib rid pre st
    rw [← hlen]
    exact getD_append_cons (processList proc calib rid pre st).particles _ _ t

/-- C5 witness: one concrete truth particle, processed alone. -/
theorem calibration_truth_write_witness :
    lookupAssoc (processList procAdapt calibId none ([] ++ pTruthEx :: [])
        [("depositions", [10, 20])]).tensors procAdapt.truth_dep_key
      = some (calibId (calibCallFor procAdapt none
          (get_points procAdapt.truth_point_mode pTruthEx) pTruthEx))
    ∧ (processList procAdapt calibId none ([] ++ pTruthEx :: [])
        [("depositions", [10, 20])]).particles.getD 0 pTruthEx
      = setAttrDeps procAdapt.truth_dep_attr
          (calibId (calibCallFor procAdapt none
            (get_points procAdapt.truth_point_mode pTruthEx) pTruthEx)) pTruthEx :=
  calibration_truth_write procAdapt calibId none [("depositions", [10, 20])]
    [] pTruthEx [] (by decide) (by decide) (by decide) (by decide)
    (by decide) (Or.inr (by decide))

/-- C2 counterexample: with run_mode 'both' and truth_point_mode
'points_adapt' (a configuration construction accepts), processing one reco
and one truth particle ends with the truth particle's wholesale write
replacing the shared 'depositions' tensor, so the tensor at the reco
particle's index no longer equals its depositions. -/
theorem calibration_alias_cex :
    CalibrationProcessor.init 2 false "particle" "both" "points_adapt"
      = .ok procAdapt
    ∧ iterParts procAdapt.obj_type procAdapt.run_mode dataBoth
      = [pRecoEx, pTruthEx]
    ∧ (CalibrationProcessor.process procAdapt calibId dataBoth).err = none
    ∧ (CalibrationProcessor.process procAdapt calibId dataBoth).particles.getD
        0 pTruthEx = { pRecoEx with depositions := [10] }
    ∧ ¬ readAt ((lookupAssoc (CalibrationProcessor.process procAdapt calibId
          dataBoth).tensors "depositions").getD []) pRecoEx.index
        = ({ pRecoEx with depositions := [10] }).depositions := by
  exact ⟨by rfl, by decide, by decide, by decide, by decide⟩

/-- C2 amended: after CalibrationProcessor.process returns without error, the
shared 'depositions' tensor at each reco particle's index equals that
particle's depositions, provided the collaborator preserves lengths, indices
are well-formed (no duplicates, in bounds, one slot per deposition, disjoint
across reco particles), and no truth particle overwrites the 'depositions'
tensor (either the resolved truth key differs from 'depositions', i.e.
truth_point_mode is 'points', or only reco particles are iterated). -/
theorem calibration_reco_alias (proc : CalibrationProcessor)
    (calib : CalibCall → List ℚ) (data : Entry)
    (Hcal : ∀ c, (calib c).length = c.depsOf.length)
    (h1 : ∀ p ∈ iterParts proc.obj_type proc.run_mode data, p.units = "cm")
    (h2 : ∀ p ∈ iterParts proc.obj_type proc.run_mode data,
      p.is_truth = false → p.index.Nodup)
    (h3 : ∀ p ∈ iterParts proc.obj_type proc.run_mode data,
      p.is_truth = false → p.index.length = p.depositions.length)
    (h4 : ∀ p ∈ iterParts proc.obj_type proc.run_mode data,
      p.is_truth = false →
      ∀ i ∈ p.index, i < ((lookupAssoc data.tensors "depositions").getD []).length)
    (h5 : List.Pairwise (fun p q => p.is_truth = false → q.is_truth = false →
      ∀ i ∈ p.index, i ∉ q.index) (iterParts proc.obj_type proc.run_mode data))
    (h6 : proc.truth_dep_key ≠ "depositions" ∨
      ∀ p ∈ iterParts proc.obj_type proc.run_mode data, p.is_truth = false) :
    (CalibrationProcessor.process proc calib data).err = none
    ∧ ∀ p' ∈ (CalibrationProcessor.process proc calib data).particles,
        p'.is_truth = false → p'.points ≠ [] →
        readAt ((lookupAssoc (CalibrationProcessor.process proc calib
            data).tensors "depositions").getD []) p'.index = p'.depositions := by
  obtain ⟨e1, _, _, e4⟩ := processList_reco_alias_inv proc calib
    (data.run_info.map RunInfo.run) Hcal
    (iterParts proc.obj_type proc.run_mode data) data.tensors
    h1 h2 h3 h4 h5 h6
  exact ⟨e1, e4⟩

/-- C2 witness: the aliasing invariant on a concrete single-particle reco
entry under truth_point_mode 'points'. -/
theorem calibration_reco_alias_witness :
    (CalibrationProcessor.process procPoints calibId dataRec).err = none
    ∧ ∀ p' ∈ (CalibrationProcessor.process procPoints calibId dataRec).particles,
        p'.is_truth = false → p'.points ≠ [] →
        readAt ((lookupAssoc (CalibrationProcessor.process procPoints calibId
            dataRec).tensors "depositions").getD []) p'.index = p'.depositions :=
  calibration_reco_alias procPoints calibId dataRec (fun c => rfl)
    (by decide) (by decide) (by decide) (by decide) (by decide)
    (Or.inl (by decide))
